import Mathlib

/-!
Verification of the PyPzza order engine (src/order.py) and order store
(src/storage.py): a shallow embedding of the Python code in Lean, followed by
theorems checking the specification's claims about it.

Conventions of the embedding:
* Python functions that can `raise` become `Except PyError _`; each `PyError`
  constructor records the data the corresponding Python message interpolates.
* Monetary amounts are exact rationals (`ℚ`).  The Python code computes with
  floats and applies `round(x, 2)`; at the price points of this program every
  value is an exact multiple of 1/100, so float arithmetic followed by
  `round(·, 2)` yields exactly the rational computed here.
* `uuid.uuid4()` and `datetime.now().isoformat()` are nondeterministic inputs;
  they are passed to `create_order` as explicit parameters.
* The persisted JSON file is a `FileState`: absent, present-but-unparsable
  (`corrupt`, carrying the raw text), or a parsed list of orders.  Store
  operations are state-passing functions on `FileState`.
-/

/-- `PIZZA_SIZES` from order.py: the size → base-price dictionary, as an
association list. -/
def PIZZA_SIZES : List (String × ℚ) :=
  [("small", 10.99), ("medium", 14.99), ("large", 18.99)]

/-- `AVAILABLE_TOPPINGS` from order.py: the topping whitelist (8 names). -/
def AVAILABLE_TOPPINGS : List String :=
  ["cheese", "pepperoni", "mushrooms", "onions",
   "sausage", "bacon", "green_peppers", "olives"]

/-- `TOPPING_PRICE` from order.py: the per-topping surcharge. -/
def TOPPING_PRICE : ℚ := 1.50

/-- `ORDER_STATES` from order.py: the status enum in its fixed order. -/
def ORDER_STATES : List String :=
  ["PENDING", "PREPARING", "READY", "DELIVERED"]

/-- The Python exceptions raised by order.py.  Every constructor except
`indexOutOfRange` models a `ValueError`; `indexOutOfRange` models the
`IndexError` a Python list subscript raises when the index is out of range.
Each constructor carries the data its message f-string interpolates. -/
inductive PyError where
  /-- ValueError "Customer name cannot be empty". -/
  | emptyCustomerName
  /-- ValueError "Invalid size. Choose from: ...". -/
  | invalidSize (size : String)
  /-- ValueError "Invalid toppings: ... Choose from: ..."; carries the full
  `invalid_toppings` list the f-string interpolates. -/
  | invalidToppings (invalid : List String)
  /-- ValueError "Invalid status. Choose from: ..." from update_order_status. -/
  | invalidStatus (new : String)
  /-- ValueError "Invalid status transition from ... to ... Valid next
  status: ..." from validate_status_transition. -/
  | invalidTransition (current new next : String)
  /-- ValueError "... is not in list" from Python list.index. -/
  | notInList (x : String)
  /-- IndexError "list index out of range" from a list subscript. -/
  | indexOutOfRange
deriving Repr, DecidableEq

/-- Drop leading whitespace characters from a character list. -/
def stripLeftChars : List Char → List Char
  | [] => []
  | c :: cs => if c.isWhitespace then stripLeftChars cs else c :: cs

/-- Python `str.strip()`: remove leading and trailing whitespace.  (Defined by
structural recursion on the character list so that it evaluates by `decide`.) -/
def pyStrip (s : String) : String :=
  String.mk ((stripLeftChars (stripLeftChars s.data).reverse).reverse)

/-- `validate_order_data` from order.py.  Checks, in this order: name empty
after strip; size not a key of `PIZZA_SIZES`; toppings outside
`AVAILABLE_TOPPINGS` (collected by a filter, reported all at once). -/
def validate_order_data (customer_name size : String) (toppings : List String) :
    Except PyError Unit :=
  if pyStrip customer_name = "" then
    .error .emptyCustomerName
  else if (PIZZA_SIZES.lookup size).isNone then
    .error (.invalidSize size)
  else
    let invalid_toppings := toppings.filter (fun t => !(AVAILABLE_TOPPINGS.contains t))
    if invalid_toppings.isEmpty then .ok () else .error (.invalidToppings invalid_toppings)

/-- Python `round(x, 2)` at the exact 2-decimal values this program produces.
Defined as round-half-up to 2 fraction digits; on every value the program
computes, `x * 100` is an integer and the function is the identity, which is
also what Python's float `round(x, 2)` observably returns there. -/
def round2 (x : ℚ) : ℚ := (⌊x * 100 + 1 / 2⌋ : ℤ) / 100

/-- `calculate_price` from order.py: base price for the size plus
`len(toppings) * TOPPING_PRICE`, rounded to 2 decimal digits.  The Python code
subscripts `PIZZA_SIZES[size]`, a KeyError when `size` is not a key; that
failure is modelled as `none`. -/
def calculate_price (size : String) (toppings : List String) : Option ℚ :=
  (PIZZA_SIZES.lookup size).map fun base_price =>
    round2 (base_price + (toppings.length : ℚ) * TOPPING_PRICE)

/-- The order record built by `create_order`: the dictionary keys of order.py
as a fixed-shape structure. -/
structure Order where
  id : String
  customer_name : String
  pizza_size : String
  toppings : List String
  status : String
  price : ℚ
  created_at : String
deriving Repr, DecidableEq

/-- `create_order` from order.py.  `fresh_id` stands for `str(uuid.uuid4())`
and `now` for `datetime.now().isoformat()`.  Validation runs first and its
error propagates; on success the record is built with the stripped name,
status "PENDING" and the computed price (validation guarantees the size is a
key, so the `getD` default is never used). -/
def create_order (fresh_id now customer_name size : String)
    (toppings : List String) : Except PyError Order :=
  match validate_order_data customer_name size toppings with
  | .error e => .error e
  | .ok _ =>
      .ok { id := fresh_id
            customer_name := pyStrip customer_name
            pizza_size := size
            toppings := toppings
            status := "PENDING"
            price := (calculate_price size toppings).getD 0
            created_at := now }

/-- Python `list.index`: index of the first occurrence, ValueError if the
element is absent. -/
def list_index (l : List String) (x : String) : Except PyError Nat :=
  match l with
  | [] => .error (.notInList x)
  | y :: ys => if y = x then .ok 0 else (list_index ys x).map (· + 1)

/-- `validate_status_transition` from order.py.  Looks up both indices with
`list.index`, then, unless `new_idx == current_idx + 1`, raises the
transition ValueError — whose message f-string evaluates
`ORDER_STATES[current_idx + 1]` first, so when that subscript is out of range
(current status DELIVERED, index 3) Python raises IndexError instead. -/
def validate_status_transition (current_status new_status : String) :
    Except PyError Unit := do
  let current_idx ← list_index ORDER_STATES current_status
  let new_idx ← list_index ORDER_STATES new_status
  if new_idx ≠ current_idx + 1 then
    match ORDER_STATES.get? (current_idx + 1) with
    | some nxt => .error (.invalidTransition current_status new_status nxt)
    | none => .error .indexOutOfRange
  else
    .ok ()

/-- `update_order_status` from order.py: rejects a `new_status` outside
`ORDER_STATES`; when the status actually changes, validates the transition and
returns the order with the status replaced; otherwise returns the order
unchanged. -/
def update_order_status (order : Order) (new_status : String) :
    Except PyError Order :=
  if !(ORDER_STATES.contains new_status) then
    .error (.invalidStatus new_status)
  else if order.status ≠ new_status then
    (validate_status_transition order.status new_status).map fun _ =>
      { order with status := new_status }
  else
    .ok order

/-- The persisted data/orders.json file: absent, present but unparsable
(carrying its raw text), or a parsed list of order records. -/
inductive FileState where
  | absent
  | corrupt (raw : String)
  | parsed (orders : List Order)
deriving Repr, DecidableEq

/-- `ensure_storage_exists` from storage.py: creates the file with an empty
array if it is missing; touches nothing otherwise. -/
def ensure_storage_exists : FileState → FileState
  | .absent => .parsed []
  | fs => fs

/-- Result of `load_orders`: the returned list, the file state afterwards, and
whether the invalid-JSON warning was printed. -/
structure LoadResult where
  orders : List Order
  fs : FileState
  warned : Bool
deriving Repr, DecidableEq

/-- `load_orders` from storage.py: `ensure_storage_exists`, then parse the
file; on a JSONDecodeError it prints a warning and returns `[]` without
touching the file. -/
def load_orders (fs : FileState) : LoadResult :=
  match ensure_storage_exists fs with
  | .corrupt raw => ⟨[], .corrupt raw, true⟩
  | .parsed orders => ⟨orders, .parsed orders, false⟩
  | .absent => ⟨[], .absent, false⟩

/-- `save_orders` from storage.py: `ensure_storage_exists`, then open the file
in write mode and dump the given list — a full overwrite, so the previous
state is discarded whatever it was. -/
def save_orders (orders : List Order) (_fs : FileState) : FileState :=
  .parsed orders

/-- The order list `load_orders` returns from a given file state. -/
def loadedOrders (fs : FileState) : List Order := (load_orders fs).orders

/-- `add_order` from storage.py: load, append, save. -/
def add_order (order : Order) (fs : FileState) : FileState :=
  let r := load_orders fs
  save_orders (r.orders ++ [order]) r.fs

/-- The scan inside `update_order`: replace the first record whose id matches,
`none` when no record matches. -/
def replace_first (order_id : String) (updated : Order) :
    List Order → Option (List Order)
  | [] => none
  | o :: os =>
      if o.id = order_id then some (updated :: os)
      else (replace_first order_id updated os).map (o :: ·)

/-- `update_order` from storage.py: load, linear scan for the id, replace in
place and save returning `true`; `false` with no write when no record
matches. -/
def update_order (order_id : String) (updated_order : Order) (fs : FileState) :
    Bool × FileState :=
  let r := load_orders fs
  match replace_first order_id updated_order r.orders with
  | some orders2 => (true, save_orders orders2 r.fs)
  | none => (false, r.fs)

/-- `get_order` from storage.py: load, return the first record with the given
id, or `None`. -/
def get_order (order_id : String) (fs : FileState) : Option Order × FileState :=
  let r := load_orders fs
  (r.orders.find? (fun o => o.id == order_id), r.fs)

/-- `delete_order` from storage.py: load, filter out every record with the
given id, save only if the count shrank; returns whether a removal occurred. -/
def delete_order (order_id : String) (fs : FileState) : Bool × FileState :=
  let r := load_orders fs
  let initial_count := r.orders.length
  let orders2 := r.orders.filter (fun o => o.id != order_id)
  if orders2.length < initial_count then (true, save_orders orders2 r.fs)
  else (false, r.fs)

/-! ## Helper lemmas shared by the claim theorems -/

/-- `round2` is the identity on any rational that is an exact multiple of
1/100 — in particular on every price this program computes. -/
lemma round2_exact (k : ℤ) (x : ℚ) (h : x * 100 = (k : ℚ)) : round2 x = x := by
  have hfloor : ⌊x * 100 + 1 / 2⌋ = k := by
    rw [h, Int.floor_int_add]
    norm_num
  rw [round2, hfloor]
  have h2 : (k : ℚ) = x * 100 := h.symm
  rw [h2]
  ring

/-- A successful lookup in `PIZZA_SIZES` yields one of the three configured
size/price pairs. -/
lemma lookup_PIZZA_SIZES (size : String) (base : ℚ)
    (h : PIZZA_SIZES.lookup size = some base) :
    (size = "small" ∧ base = 10.99) ∨ (size = "medium" ∧ base = 14.99) ∨
      (size = "large" ∧ base = 18.99) := by
  by_cases h1 : size = "small"
  · subst h1
    have h' := (rfl : PIZZA_SIZES.lookup "small" = some (10.99 : ℚ)).symm.trans h
    exact Or.inl ⟨rfl, (Option.some.inj h').symm⟩
  by_cases h2 : size = "medium"
  · subst h2
    have h' := (rfl : PIZZA_SIZES.lookup "medium" = some (14.99 : ℚ)).symm.trans h
    exact Or.inr (Or.inl ⟨rfl, (Option.some.inj h').symm⟩)
  by_cases h3 : size = "large"
  · subst h3
    have h' := (rfl : PIZZA_SIZES.lookup "large" = some (18.99 : ℚ)).symm.trans h
    exact Or.inr (Or.inr ⟨rfl, (Option.some.inj h').symm⟩)
  · exfalso
    have e1 : (size == "small") = false := beq_eq_false_iff_ne.mpr h1
    have e2 : (size == "medium") = false := beq_eq_false_iff_ne.mpr h2
    have e3 : (size == "large") = false := beq_eq_false_iff_ne.mpr h3
    simp [PIZZA_SIZES, List.lookup, e1, e2, e3] at h

/-- With a valid size, `calculate_price` is exactly base price plus surcharge
times topping count (duplicates counted): the 2-digit rounding is the
identity here. -/
lemma calculate_price_eq (size : String) (base : ℚ) (tops : List String)
    (h : PIZZA_SIZES.lookup size = some base) :
    calculate_price size tops
      = some (base + (tops.length : ℚ) * TOPPING_PRICE) := by
  obtain ⟨c, hc⟩ : ∃ c : ℤ, base * 100 = (c : ℚ) := by
    rcases lookup_PIZZA_SIZES size base h with ⟨_, hb⟩ | ⟨_, hb⟩ | ⟨_, hb⟩
    · exact ⟨1099, by rw [hb]; norm_num⟩
    · exact ⟨1499, by rw [hb]; norm_num⟩
    · exact ⟨1899, by rw [hb]; norm_num⟩
  rw [calculate_price, h, Option.map_some']
  congr 1
  apply round2_exact (c + 150 * (tops.length : ℤ))
  rw [show TOPPING_PRICE = (3 / 2 : ℚ) from by norm_num [TOPPING_PRICE]]
  push_cast
  linear_combination hc

/-- When the three checks pass — non-empty stripped name, known size, all
toppings whitelisted — validation returns without raising. -/
lemma validate_ok_of (name size : String) (tops : List String)
    (hname : pyStrip name ≠ "") (hsize : (PIZZA_SIZES.lookup size).isSome)
    (htops : ∀ t ∈ tops, t ∈ AVAILABLE_TOPPINGS) :
    validate_order_data name size tops = .ok () := by
  obtain ⟨b, hb⟩ := Option.isSome_iff_exists.mp hsize
  have hfil : tops.filter (fun t => !(AVAILABLE_TOPPINGS.contains t)) = [] := by
    apply List.filter_eq_nil_iff.mpr
    intro t ht
    simp [htops t ht]
  simp [validate_order_data, hname, hb, hfil]
  exact htops

/-- When the status actually changes and the target is in the enum,
`update_order_status` defers to `validate_status_transition`. -/
lemma update_order_status_changing (order : Order) (ns : String)
    (h : order.status ≠ ns) (hmem : ns ∈ ORDER_STATES) :
    update_order_status order ns
      = (validate_status_transition order.status ns).map
          (fun _ => { order with status := ns }) := by
  simp [update_order_status, hmem, h]

/-- A scan by id finds nothing in a list where no record carries the id. -/
lemma find?_id_none (oid : String) (l : List Order)
    (h : ∀ r ∈ l, r.id ≠ oid) :
    l.find? (fun o => o.id == oid) = none := by
  apply List.find?_eq_none.mpr
  intro x hx
  simp [h x hx]

/-- A scan by id over `l ++ [o]` finds exactly `o` when no record of `l`
carries o's id. -/
lemma find?_id_append (o : Order) (l : List Order)
    (h : ∀ r ∈ l, r.id ≠ o.id) :
    (l ++ [o]).find? (fun r => r.id == o.id) = some o := by
  rw [List.find?_append, find?_id_none o.id l h]
  simp [List.find?]

/-- Filtering out an id that no record carries keeps the list intact. -/
lemma filter_id_ne (oid : String) (l : List Order)
    (h : ∀ r ∈ l, r.id ≠ oid) :
    l.filter (fun o => o.id != oid) = l := by
  apply List.filter_eq_self.mpr
  intro a ha
  simp [bne_iff_ne]
  exact h a ha

/-- The update scan misses when no record carries the id. -/
lemma replace_first_none (oid : String) (u : Order) (l : List Order)
    (h : ∀ r ∈ l, r.id ≠ oid) :
    replace_first oid u l = none := by
  induction l with
  | nil => rfl
  | cons a as ih =>
      simp [replace_first, h a (List.mem_cons_self a as),
            ih fun r hr => h r (List.mem_cons_of_mem a hr)]

/-- The update scan replaces exactly the first record carrying the id. -/
lemma replace_first_found (oid : String) (u : Order) (pre : List Order)
    (x : Order) (post : List Order) (hx : x.id = oid)
    (hpre : ∀ r ∈ pre, r.id ≠ oid) :
    replace_first oid u (pre ++ x :: post) = some (pre ++ u :: post) := by
  induction pre with
  | nil => simp [replace_first, hx]
  | cons a as ih =>
      simp [replace_first, hpre a (List.mem_cons_self a as),
            ih fun r hr => hpre r (List.mem_cons_of_mem a hr)]

/-- Equality of `Except` results is decidable when both payloads are, so
concrete runs of the embedded functions can be checked by `decide`. -/
instance {ε α : Type} [DecidableEq ε] [DecidableEq α] :
    DecidableEq (Except ε α) := fun a b =>
  match a, b with
  | .ok x, .ok y =>
      if h : x = y then isTrue (by rw [h])
      else isFalse fun hh => h (Except.ok.inj hh)
  | .error x, .error y =>
      if h : x = y then isTrue (by rw [h])
      else isFalse fun hh => h (Except.error.inj hh)
  | .ok _, .error _ => isFalse fun hh => Except.noConfusion hh
  | .error _, .ok _ => isFalse fun hh => Except.noConfusion hh

/-! ## Claim theorems -/

/-- C1: from an order whose status is DELIVERED, a transition to any other
enum status does fail — but not with the `InvalidTransitionError`
(`ValueError`) the claim names: the raising statement's message f-string
evaluates `ORDER_STATES[current_idx + 1]` = `ORDER_STATES[4]`, which is out
of range, so Python raises `IndexError` while building the message. -/
theorem delivered_transition_raises_index_error (order : Order)
    (new_status : String) (hcur : order.status = "DELIVERED")
    (hmem : new_status ∈ ORDER_STATES) (hne : new_status ≠ "DELIVERED") :
    update_order_status order new_status = .error .indexOutOfRange := by
  have h : order.status ≠ new_status := by
    rw [hcur]
    exact fun hh => hne hh.symm
  rw [update_order_status_changing order new_status h hmem, hcur]
  fin_cases hmem
  · rfl
  · rfl
  · rfl
  · exact absurd rfl hne

/-- C1 witness: a concrete DELIVERED order with target READY. -/
theorem delivered_transition_raises_index_error_witness :
    ({ id := "o1", customer_name := "Ann", pizza_size := "medium",
       toppings := ["cheese"], status := "DELIVERED", price := 16.49,
       created_at := "t1" } : Order).status = "DELIVERED" ∧
    ("READY" : String) ∈ ORDER_STATES ∧
    ("READY" : String) ≠ "DELIVERED" ∧
    update_order_status
        { id := "o1", customer_name := "Ann", pizza_size := "medium",
          toppings := ["cheese"], status := "DELIVERED", price := 16.49,
          created_at := "t1" } "READY"
      = .error .indexOutOfRange :=
  ⟨rfl, by decide, by decide,
    delivered_transition_raises_index_error _ "READY" rfl (by decide) (by decide)⟩

/-- C2: the transition contract of `update_order_status` holds at the
PENDING examples (READY rejected with the transition ValueError, PREPARING
accepted with only the status replaced, an unknown status rejected), but at
the claim's DELIVERED corner the promised `InvalidTransitionError`
(ValueError) is not what is raised: evaluating the code at a DELIVERED order
and target PENDING yields the IndexError from the message construction. -/
theorem update_status_contract_divergence :
    update_order_status
        { id := "p1", customer_name := "Ann", pizza_size := "medium",
          toppings := [], status := "PENDING", price := 14.99,
          created_at := "t" } "READY"
      = .error (.invalidTransition "PENDING" "READY" "PREPARING") ∧
    update_order_status
        { id := "p1", customer_name := "Ann", pizza_size := "medium",
          toppings := [], status := "PENDING", price := 14.99,
          created_at := "t" } "PREPARING"
      = .ok { id := "p1", customer_name := "Ann", pizza_size := "medium",
              toppings := [], status := "PREPARING", price := 14.99,
              created_at := "t" } ∧
    update_order_status
        { id := "p1", customer_name := "Ann", pizza_size := "medium",
          toppings := [], status := "PENDING", price := 14.99,
          created_at := "t" } "CANCELLED"
      = .error (.invalidStatus "CANCELLED") ∧
    update_order_status
        { id := "o2", customer_name := "Bob", pizza_size := "large",
          toppings := ["bacon"], status := "DELIVERED", price := 20.49,
          created_at := "t2" } "PENDING"
      = .error .indexOutOfRange :=
  ⟨rfl, rfl, rfl, rfl⟩

/-- C6: a self-transition (target equals the current status) is always a
successful no-op returning the order unchanged, including at DELIVERED. -/
theorem self_transition_noop (order : Order)
    (h : order.status ∈ ORDER_STATES) :
    update_order_status order order.status = .ok order := by
  simp [update_order_status, h]

/-- C6 witness: self-transition at a concrete DELIVERED order. -/
theorem self_transition_noop_witness :
    ({ id := "o3", customer_name := "Cam", pizza_size := "small",
       toppings := [], status := "DELIVERED", price := 10.99,
       created_at := "t3" } : Order).status ∈ ORDER_STATES ∧
    update_order_status
        { id := "o3", customer_name := "Cam", pizza_size := "small",
          toppings := [], status := "DELIVERED", price := 10.99,
          created_at := "t3" } "DELIVERED"
      = .ok { id := "o3", customer_name := "Cam", pizza_size := "small",
              toppings := [], status := "DELIVERED", price := 10.99,
              created_at := "t3" } :=
  ⟨by decide, self_transition_noop _ (by decide)⟩

/-- C3 counterexample: the claim quantifies over every input with an invalid
topping, but the name check runs first — with an empty customer name and the
claim's own topping list, validation raises the empty-name ValueError, whose
message mentions no topping at all. -/
theorem validate_toppings_claim_counterexample :
    validate_order_data "" "small" ["cheese", "bad1", "bad2"]
      = .error .emptyCustomerName ∧
    validate_order_data "" "small" ["cheese", "bad1", "bad2"]
      ≠ .error (.invalidToppings ["bad1", "bad2"]) :=
  ⟨rfl, by decide⟩

/-- C3 amended: whenever the earlier checks pass (name non-empty after
stripping, size in the table), validation with at least one invalid topping
fails with the ValueError carrying the full filtered list of invalid
toppings, and every invalid topping of the input is in that list. -/
theorem validate_reports_all_invalid_toppings (name size : String)
    (tops : List String) (hname : pyStrip name ≠ "")
    (hsize : (PIZZA_SIZES.lookup size).isSome)
    (hbad : tops.filter (fun t => !(AVAILABLE_TOPPINGS.contains t)) ≠ []) :
    validate_order_data name size tops
      = .error (.invalidToppings
          (tops.filter (fun t => !(AVAILABLE_TOPPINGS.contains t)))) ∧
    ∀ t ∈ tops, t ∉ AVAILABLE_TOPPINGS →
      t ∈ tops.filter (fun t => !(AVAILABLE_TOPPINGS.contains t)) := by
  obtain ⟨b, hb⟩ := Option.isSome_iff_exists.mp hsize
  constructor
  · simp [validate_order_data, hname, hb, hbad]
    obtain ⟨x, hx⟩ := List.exists_mem_of_ne_nil _ hbad
    have hx' := List.mem_filter.mp hx
    exact ⟨x, hx'.1, by simpa using hx'.2⟩
  · intro t ht hnotin
    simp [List.mem_filter, ht, hnotin]

/-- C3 witness: the claim's own example with a valid name. -/
theorem validate_reports_all_invalid_toppings_witness :
    pyStrip "Ann" ≠ "" ∧
    (PIZZA_SIZES.lookup "small").isSome = true ∧
    (["cheese", "bad1", "bad2"].filter
        (fun t => !(AVAILABLE_TOPPINGS.contains t)) ≠ []) ∧
    validate_order_data "Ann" "small" ["cheese", "bad1", "bad2"]
      = .error (.invalidToppings ["bad1", "bad2"]) :=
  ⟨by decide, by decide, by decide,
    (validate_reports_all_invalid_toppings "Ann" "small"
      ["cheese", "bad1", "bad2"] (by decide) (by decide) (by decide)).1⟩

/-- C4: `create_order` runs validation first; on valid input it succeeds and
returns the record with the stripped name, the given size and toppings,
status PENDING and price `calculate_price size toppings`; on any input
validation rejects it fails with the very same ValueError. -/
theorem create_order_spec (fresh_id now name size : String)
    (tops : List String) :
    (pyStrip name ≠ "" → (PIZZA_SIZES.lookup size).isSome →
      (∀ t ∈ tops, t ∈ AVAILABLE_TOPPINGS) →
      ∃ p, calculate_price size tops = some p ∧
        create_order fresh_id now name size tops
          = .ok { id := fresh_id, customer_name := pyStrip name,
                  pizza_size := size, toppings := tops, status := "PENDING",
                  price := p, created_at := now }) ∧
    (∀ e, validate_order_data name size tops = .error e →
      create_order fresh_id now name size tops = .error e) := by
  constructor
  · intro hname hsize htops
    obtain ⟨b, hb⟩ := Option.isSome_iff_exists.mp hsize
    refine ⟨b + (tops.length : ℚ) * TOPPING_PRICE,
      calculate_price_eq size b tops hb, ?_⟩
    simp [create_order, validate_ok_of name size tops hname hsize htops,
      calculate_price_eq size b tops hb]
  · intro e he
    simp [create_order, he]

/-- C4 witness: a valid order with a name needing trimming. -/
theorem create_order_spec_witness :
    pyStrip " Ann " ≠ "" ∧
    (PIZZA_SIZES.lookup "medium").isSome = true ∧
    (∀ t ∈ ["cheese", "olives"], t ∈ AVAILABLE_TOPPINGS) ∧
    ∃ p, calculate_price "medium" ["cheese", "olives"] = some p ∧
      create_order "id-1" "2024-01-01T00:00:00" " Ann " "medium"
          ["cheese", "olives"]
        = .ok { id := "id-1", customer_name := "Ann", pizza_size := "medium",
                toppings := ["cheese", "olives"], status := "PENDING",
                price := p, created_at := "2024-01-01T00:00:00" } :=
  ⟨by decide, by decide, by decide,
    (create_order_spec "id-1" "2024-01-01T00:00:00" " Ann " "medium"
        ["cheese", "olives"]).1 (by decide) (by decide) (by decide)⟩

/-- C5: for a size of the table, the price is the base price plus 1.50 per
topping occurrence (duplicates counted by `List.length`), the 2-digit
rounding being exact on these values; medium with two toppings gives
17.99. -/
theorem calculate_price_spec (size : String) (base : ℚ) (tops : List String)
    (h : PIZZA_SIZES.lookup size = some base) :
    calculate_price size tops
      = some (base + (tops.length : ℚ) * TOPPING_PRICE) ∧
    calculate_price "medium" ["cheese", "olives"] = some 17.99 := by
  refine ⟨calculate_price_eq size base tops h, ?_⟩
  rw [calculate_price_eq "medium" 14.99 ["cheese", "olives"] rfl]
  congr 1
  norm_num [TOPPING_PRICE]

/-- C5 witness: the medium pizza with two toppings. -/
theorem calculate_price_spec_witness :
    PIZZA_SIZES.lookup "medium" = some (14.99 : ℚ) ∧
    calculate_price "medium" ["cheese", "olives"] = some 17.99 :=
  ⟨rfl, (calculate_price_spec "medium" 14.99 ["cheese", "olives"] rfl).2⟩

/-- C10: duplicate whitelisted toppings pass validation — the engine never
deduplicates — and the created record keeps the list with duplicates intact,
the 1.50 surcharge being charged once per occurrence. -/
theorem duplicates_accepted (fresh_id now name size : String) (base : ℚ)
    (tops : List String) (hname : pyStrip name ≠ "")
    (hbase : PIZZA_SIZES.lookup size = some base)
    (htops : ∀ t ∈ tops, t ∈ AVAILABLE_TOPPINGS)
    (hdup : ¬ tops.Nodup) :
    validate_order_data name size tops = .ok () ∧
    create_order fresh_id now name size tops
      = .ok { id := fresh_id, customer_name := pyStrip name,
              pizza_size := size, toppings := tops, status := "PENDING",
              price := base + (tops.length : ℚ) * TOPPING_PRICE,
              created_at := now } := by
  have hsize : (PIZZA_SIZES.lookup size).isSome := by rw [hbase]; rfl
  have hok := validate_ok_of name size tops hname hsize htops
  refine ⟨hok, ?_⟩
  simp [create_order, hok, calculate_price_eq size base tops hbase]

/-- C10 witness: "cheese" listed twice on a small pizza. -/
theorem duplicates_accepted_witness :
    pyStrip "Bob" ≠ "" ∧
    PIZZA_SIZES.lookup "small" = some (10.99 : ℚ) ∧
    (∀ t ∈ ["cheese", "cheese"], t ∈ AVAILABLE_TOPPINGS) ∧
    ¬ (["cheese", "cheese"] : List String).Nodup ∧
    (validate_order_data "Bob" "small" ["cheese", "cheese"] = .ok () ∧
      create_order "id-2" "2024-01-02T00:00:00" "Bob" "small"
          ["cheese", "cheese"]
        = .ok { id := "id-2", customer_name := "Bob", pizza_size := "small",
                toppings := ["cheese", "cheese"], status := "PENDING",
                price := 10.99
                  + ((["cheese", "cheese"] : List String).length : ℚ)
                    * TOPPING_PRICE,
                created_at := "2024-01-02T00:00:00" }) :=
  ⟨by decide, rfl, by decide, by decide,
    duplicates_accepted "id-2" "2024-01-02T00:00:00" "Bob" "small" 10.99
      ["cheese", "cheese"] (by decide) rfl (by decide) (by decide)⟩

/-- C7: store round-trip.  Starting from any persisted state whose loaded
collection holds no record with o's id, adding o then fetching o's id
returns o; deleting o's id afterwards makes the fetch return none. -/
theorem store_round_trip (o : Order) (fs : FileState)
    (hfresh : ∀ r ∈ loadedOrders fs, r.id ≠ o.id) :
    (get_order o.id (add_order o fs)).1 = some o ∧
    (get_order o.id (delete_order o.id (add_order o fs)).2).1 = none := by
  have hadd : add_order o fs = .parsed (loadedOrders fs ++ [o]) := rfl
  constructor
  · rw [hadd]
    show (loadedOrders fs ++ [o]).find? (fun r => r.id == o.id) = some o
    exact find?_id_append o (loadedOrders fs) hfresh
  · rw [hadd]
    have hfil : (loadedOrders fs ++ [o]).filter (fun r => r.id != o.id)
        = loadedOrders fs := by
      rw [List.filter_append, filter_id_ne o.id (loadedOrders fs) hfresh]
      simp
    have hdel : delete_order o.id (FileState.parsed (loadedOrders fs ++ [o]))
        = (true, FileState.parsed (loadedOrders fs)) := by
      simp [delete_order, load_orders, ensure_storage_exists, save_orders, hfil]
    rw [hdel]
    show (loadedOrders fs).find? (fun r => r.id == o.id) = none
    exact find?_id_none o.id (loadedOrders fs) hfresh

/-- C7 witness: round-trip through an initially empty parsed store. -/
theorem store_round_trip_witness :
    (∀ r ∈ loadedOrders (FileState.parsed []), r.id ≠ "w7") ∧
    (get_order "w7" (add_order
        { id := "w7", customer_name := "Ann", pizza_size := "small",
          toppings := [], status := "PENDING", price := 10.99,
          created_at := "t" } (FileState.parsed []))).1
      = some { id := "w7", customer_name := "Ann", pizza_size := "small",
               toppings := [], status := "PENDING", price := 10.99,
               created_at := "t" } ∧
    (get_order "w7" (delete_order "w7" (add_order
        { id := "w7", customer_name := "Ann", pizza_size := "small",
          toppings := [], status := "PENDING", price := 10.99,
          created_at := "t" } (FileState.parsed []))).2).1 = none :=
  ⟨by decide,
    (store_round_trip
      { id := "w7", customer_name := "Ann", pizza_size := "small",
        toppings := [], status := "PENDING", price := 10.99,
        created_at := "t" } (FileState.parsed []) (by decide)).1,
    (store_round_trip
      { id := "w7", customer_name := "Ann", pizza_size := "small",
        toppings := [], status := "PENDING", price := 10.99,
        created_at := "t" } (FileState.parsed []) (by decide)).2⟩

/-- C8: `update_order` on an id no loaded record carries returns false and
never saves — the resulting state is exactly the post-load state and the
loaded collection is unchanged; on a matching id it replaces the first
matching record in place, saves, and returns true. -/
theorem update_order_spec (oid : String) (u : Order) (fs : FileState) :
    ((∀ r ∈ loadedOrders fs, r.id ≠ oid) →
      update_order oid u fs = (false, (load_orders fs).fs) ∧
      loadedOrders (update_order oid u fs).2 = loadedOrders fs) ∧
    (∀ pre x post, loadedOrders fs = pre ++ x :: post → x.id = oid →
      (∀ r ∈ pre, r.id ≠ oid) →
      update_order oid u fs = (true, .parsed (pre ++ u :: post))) := by
  constructor
  · intro hmiss
    have hnone : replace_first oid u (load_orders fs).orders = none :=
      replace_first_none oid u (loadedOrders fs) hmiss
    have h1 : update_order oid u fs = (false, (load_orders fs).fs) := by
      simp [update_order, hnone]
    refine ⟨h1, ?_⟩
    rw [h1]
    cases fs <;> rfl
  · intro pre x post hsplit hx hpre
    have hsome : replace_first oid u (load_orders fs).orders
        = some (pre ++ u :: post) := by
      show replace_first oid u (loadedOrders fs) = some (pre ++ u :: post)
      rw [hsplit]
      exact replace_first_found oid u pre x post hx hpre
    simp [update_order, hsome, save_orders]

/-- C8 witness: unknown id against a store holding one other record. -/
theorem update_order_spec_witness :
    (∀ r ∈ loadedOrders (FileState.parsed
        [{ id := "a1", customer_name := "Ann", pizza_size := "small",
           toppings := [], status := "PENDING", price := 10.99,
           created_at := "t" }]), r.id ≠ "zz") ∧
    (update_order "zz"
        { id := "zz", customer_name := "Zoe", pizza_size := "large",
          toppings := [], status := "PENDING", price := 18.99,
          created_at := "t9" }
        (FileState.parsed
          [{ id := "a1", customer_name := "Ann", pizza_size := "small",
             toppings := [], status := "PENDING", price := 10.99,
             created_at := "t" }])
      = (false, FileState.parsed
          [{ id := "a1", customer_name := "Ann", pizza_size := "small",
             toppings := [], status := "PENDING", price := 10.99,
             created_at := "t" }]) ∧
     loadedOrders (update_order "zz"
        { id := "zz", customer_name := "Zoe", pizza_size := "large",
          toppings := [], status := "PENDING", price := 18.99,
          created_at := "t9" }
        (FileState.parsed
          [{ id := "a1", customer_name := "Ann", pizza_size := "small",
             toppings := [], status := "PENDING", price := 10.99,
             created_at := "t" }])).2
       = loadedOrders (FileState.parsed
          [{ id := "a1", customer_name := "Ann", pizza_size := "small",
             toppings := [], status := "PENDING", price := 10.99,
             created_at := "t" }])) :=
  ⟨by decide,
    (update_order_spec "zz"
      { id := "zz", customer_name := "Zoe", pizza_size := "large",
        toppings := [], status := "PENDING", price := 18.99,
        created_at := "t9" }
      (FileState.parsed
        [{ id := "a1", customer_name := "Ann", pizza_size := "small",
           toppings := [], status := "PENDING", price := 10.99,
           created_at := "t" }])).1 (by decide)⟩

/-- C9: loading from an existing but unparsable file returns the empty list,
raises nothing (the JSONDecodeError is caught), emits the warning print, and
leaves the corrupted contents exactly in place — no rewrite in that call. -/
theorem load_orders_corrupt (raw : String) :
    (load_orders (.corrupt raw)).orders = [] ∧
    (load_orders (.corrupt raw)).warned = true ∧
    (load_orders (.corrupt raw)).fs = .corrupt raw :=
  ⟨rfl, rfl, rfl⟩
